import Mathlib

/-!
Verification development for the token lifecycle core of the dating-backend
repository.  The data model follows the table definitions in
src/database/seeds/newUserSeed.js; the operations embed the plpgsql
functions of that file (access_video_by_token, the two BEFORE UPDATE
triggers on video_tokens, create_custom_video_with_token,
get_response_funnel) and the service layer in
src/modules/token/tokenService.js (submitTokenResponse, generateTokens,
assignVideoToToken).  Timestamps are naturals (milliseconds); UUIDs are
naturals allocated from a counter.
-/

/-- video_tokens.status CHECK constraint: active, viewed, expired, revoked. -/
inductive TokenStatus
  | active
  | viewed
  | expired
  | revoked
deriving DecidableEq

/-- The terminal statuses of the state machine: every status except
active. -/
def TokenStatus.isTerminal : TokenStatus → Bool
  | .active => false
  | .viewed => true
  | .expired => true
  | .revoked => true

/-- The literal column value of a status, as the JS layer sees it
(statuses are stored lowercase, so toLowerCase is the identity). -/
def TokenStatus.str : TokenStatus → String
  | .active => "active"
  | .viewed => "viewed"
  | .expired => "expired"
  | .revoked => "revoked"

/-- token_activity_logs.log_type CHECK constraint. -/
inductive LogType
  | profileTok
  | videoTok
deriving DecidableEq

/-- token_activity_logs.activity_type CHECK constraint. -/
inductive ActivityType
  | created
  | viewed
  | responded
  | expired
  | revoked
deriving DecidableEq

/-- A row of the videos table (the columns the core operations touch). -/
structure Video where
  id : Nat
  userId : Nat
  videoUrl : Option String
  thumbnailUrl : Option String
  durationSeconds : Nat
  videoType : String
  isActive : Bool
  isViewed : Bool
  firstViewedAt : Option Nat
  viewerTokenId : Option Nat
deriving DecidableEq

/-- A row of the video_tokens table. -/
structure VideoToken where
  id : Nat
  tokenCode : String
  status : TokenStatus
  userId : Nat
  videoId : Nat
  privateLabel : Option String
  privateNotes : Option String
  createdAt : Nat
  expiresAt : Nat
  viewedAt : Option Nat
  viewerIp : Option String
  viewerUserAgent : Option String
deriving DecidableEq

/-- A row of the token_activity_logs table. -/
structure ActivityLog where
  logType : LogType
  profileId : Option Nat
  videoTokenId : Option Nat
  activity : ActivityType
  ipAddress : Option String
  userAgent : Option String
deriving DecidableEq

/-- A row of the viewer_responses table. -/
structure ViewerResponse where
  id : Nat
  responseType : String
  profileId : Option Nat
  videoTokenId : Option Nat
  interestLevel : String
  viewerName : Option String
  viewerEmail : Option String
  viewerPhone : Option String
  viewerInstagram : Option String
  preferredContactMethod : Option String
  message : Option String
deriving DecidableEq

/-- A row of the notifications table (the fields the response path writes). -/
structure Notification where
  userId : Nat
  kind : String
  title : String
  message : String
deriving DecidableEq

/-- A row of the profiles table (the columns the token core touches). -/
structure Profile where
  id : Nat
  profileToken : String
deriving DecidableEq

/-- The store: one list per table, plus an id-allocation counter standing in
for uuid_generate_v4. -/
structure DB where
  profiles : List Profile
  videos : List Video
  tokens : List VideoToken
  logs : List ActivityLog
  responses : List ViewerResponse
  notifications : List Notification
  nextId : Nat
deriving DecidableEq

/-- One day in milliseconds: JS uses 24*60*60*1000 ms, SQL uses day
intervals; both are rendered on this scale. -/
def dayMs : Nat := 86400000

/-- Trigger check_video_token_expiration (newUserSeed.js lines 2060-2087),
BEFORE UPDATE on video_tokens: if the row being written is still active but
past its expiry, flip it to expired and log an expired activity event.
The condition reads the NEW row, so an update that itself sets
status = viewed bypasses this check. -/
def handle_video_token_expiration (now : Nat) (new : VideoToken) :
    VideoToken × Option ActivityLog :=
  if new.expiresAt < now ∧ new.status = TokenStatus.active then
    ({ new with status := TokenStatus.expired },
     some { logType := LogType.videoTok, profileId := none,
            videoTokenId := some new.id, activity := ActivityType.expired,
            ipAddress := none, userAgent := none })
  else (new, none)

/-- Trigger handle_video_token_viewing (newUserSeed.js lines 2090-2133),
BEFORE UPDATE on video_tokens: on an active-to-viewed transition, mark the
target video as viewed (is_viewed, first_viewed_at, viewer_token_id),
stamp viewed_at on the token, and log a viewed activity event. -/
def handle_video_token_viewing (now : Nat) (old new : VideoToken)
    (videos : List Video) :
    VideoToken × List Video × Option ActivityLog :=
  if old.status = TokenStatus.active ∧ new.status = TokenStatus.viewed then
    ({ new with viewedAt := some now },
     videos.map (fun v =>
       if v.id == new.videoId then
         { v with isViewed := true, firstViewedAt := some now,
                  viewerTokenId := some new.id }
       else v),
     some { logType := LogType.videoTok, profileId := none,
            videoTokenId := some new.id, activity := ActivityType.viewed,
            ipAddress := new.viewerIp, userAgent := new.viewerUserAgent })
  else (new, videos, none)

/-- An UPDATE of one video_tokens row.  Postgres fires the BEFORE UPDATE
triggers in name order: check_video_token_expiration first, then
handle_video_token_viewing_trigger.  Returns the new store and the row as
stored (what .select().single() after the update returns). -/
def updateVideoTokenRow (now : Nat) (db : DB) (old new : VideoToken) :
    DB × VideoToken :=
  let r1 := handle_video_token_expiration now new
  let r2 := handle_video_token_viewing now old r1.1 db.videos
  ({ db with
      tokens := db.tokens.map (fun u => if u.id == old.id then r2.1 else u),
      videos := r2.2.1,
      logs := db.logs ++ r1.2.toList ++ r2.2.2.toList },
   r2.1)

/-- Result of access_video_by_token: the jsonb success payload (token id and
code plus the video row read before the update), or the error string. -/
inductive RedeemResult
  | success (tokenId : Nat) (tokenCode : String) (video : Option Video)
  | failure (errorMessage : String)
deriving DecidableEq

def RedeemResult.isSuccess : RedeemResult → Bool
  | .success _ _ _ => true
  | .failure _ => false

/-- access_video_by_token (newUserSeed.js lines 2315-2386): select the token
row by code FOR UPDATE, reject on status expired / viewed / revoked, read
the video and profile payload, then set status = viewed with the viewer
metadata (the BEFORE UPDATE triggers do the bookkeeping).  Note the checks
read only the status column; expires_at is never compared to now here. -/
def access_video_by_token (now : Nat) (code : String)
    (ip ua : Option String) (db : DB) : RedeemResult × DB :=
  match db.tokens.find? (fun t => t.tokenCode == code) with
  | none => (RedeemResult.failure "Token not found", db)
  | some t =>
    if t.status = TokenStatus.expired then
      (RedeemResult.failure "Token has expired", db)
    else if t.status = TokenStatus.viewed then
      (RedeemResult.failure
        "This video has already been viewed and is no longer available", db)
    else if t.status = TokenStatus.revoked then
      (RedeemResult.failure "This token has been revoked by the sender", db)
    else
      let video := db.videos.find? (fun v => v.id == t.videoId)
      let upd := { t with status := TokenStatus.viewed,
                          viewerIp := ip, viewerUserAgent := ua }
      (RedeemResult.success t.id t.tokenCode video,
       (updateVideoTokenRow now db t upd).1)

/-- One redemption request: its arrival time and viewer metadata. -/
structure RedeemReq where
  now : Nat
  ip : Option String
  ua : Option String
deriving DecidableEq

/-- A sequence of redemption attempts against one token code, each attempt
one atomic access_video_by_token transaction (the SELECT ... FOR UPDATE
row lock serializes them). -/
def redeemTrace (code : String) (db : DB) :
    List RedeemReq → List RedeemResult × DB
  | [] => ([], db)
  | q :: qs =>
    let r := access_video_by_token q.now code q.ip q.ua db
    let rest := redeemTrace code r.2 qs
    (r.1 :: rest.1, rest.2)

/-- JS truthiness of an optional string request field: undefined, null and
the empty string are falsy. -/
def present : Option String → Bool
  | none => false
  | some s => !s.isEmpty

/-- The JS pattern value-or-null used when building insert records: an
absent or empty field is stored as NULL. -/
def orNull (o : Option String) : Option String :=
  if present o then o else none

/-- The viewer-submitted fields of a SubmitResponse call
(tokenService.js submitTokenResponse destructures exactly these). -/
structure ResponseInput where
  name : Option String
  email : Option String
  phone : Option String
  instagram : Option String
  preferredContact : Option String
  interestLevel : Option String
  message : Option String
deriving DecidableEq

/-- Typed error carrying the HTTP status and message of an ApiError throw. -/
structure ApiError where
  statusCode : Nat
  message : String
deriving DecidableEq

/-- The PRO- route split of submitTokenResponse:
JS tokenId.startsWith("PRO-"), rendered on the character list underlying
the string (the builtin String.startsWith is opaque to kernel reduction). -/
def startsWithPRO (s : String) : Bool :=
  s.data.take 4 == "PRO-".data

/-- View of Except used to derive decidable equality for result values. -/
def exceptToSum {e a : Type} : Except e a → Sum e a
  | .error x => .inl x
  | .ok x => .inr x

instance {e a : Type} [DecidableEq e] [DecidableEq a] :
    DecidableEq (Except e a) := fun x y =>
  decidable_of_iff (exceptToSum x = exceptToSum y)
    (by cases x <;> cases y <;> simp [exceptToSum])

/-- The contact-consistency rule for interested responses.  The identical
logic appears three times in the source: the custom body check of
validateResponseSubmission (tokenValidator.js lines 142-167), and inline in
both branches of submitTokenResponse (tokenService.js).  Returns the error
message of the first failing check, or none when the input passes. -/
def interestedContactError (r : ResponseInput) : Option String :=
  if r.interestLevel == some "interested" then
    if !present r.email && !present r.phone && !present r.instagram then
      some "At least one contact method (email, phone, or Instagram) is required for interested responses"
    else if present r.preferredContact then
      if r.preferredContact == some "email" && !present r.email then
        some "Email is required when email is selected as preferred contact method"
      else if r.preferredContact == some "phone" && !present r.phone then
        some "Phone is required when phone is selected as preferred contact method"
      else if r.preferredContact == some "instagram" && !present r.instagram then
        some "Instagram is required when Instagram is selected as preferred contact method"
      else none
    else none
  else none

/-- The notification title composed by submitTokenResponse. -/
def notificationTitle (r : ResponseInput) : String :=
  "New Response: " ++ r.name.getD ""

/-- The notification message composed by submitTokenResponse from the
interest level (three fixed templates). -/
def notificationMessage (r : ResponseInput) : String :=
  if r.interestLevel == some "interested" then
    r.name.getD "" ++ " is interested in connecting with you!"
  else if r.interestLevel == some "maybe_later" then
    r.name.getD "" ++ " might be interested later."
  else
    r.name.getD "" ++ " is not interested at this time."

/-- The duplicate check of the video branch of submitTokenResponse: a
stand-alone read of viewer_responses (maybeSingle on video_token_id),
issued as its own store call before and separately from the insert. -/
def tokenHasResponse (tid : Nat) (db : DB) : Bool :=
  (db.responses.find? (fun x => x.videoTokenId == some tid)).isSome

/-- The viewer_responses record built by the video branch of
submitTokenResponse. -/
def videoResponseRecord (tid : Nat) (r : ResponseInput)
    (ip ua : Option String) (rid : Nat) : ViewerResponse :=
  { id := rid,
    responseType := "video",
    profileId := none,
    videoTokenId := some tid,
    interestLevel := r.interestLevel.getD "",
    viewerName := r.name,
    viewerEmail := orNull r.email,
    viewerPhone := orNull r.phone,
    viewerInstagram := orNull r.instagram,
    preferredContactMethod := orNull r.preferredContact,
    message := orNull r.message }

/-- The insert phase of the video branch of submitTokenResponse: insert the
response row, append the responded activity-log entry, and insert the
owner notification.  In the source these are separate store calls issued
only after tokenHasResponse returned false; nothing ties them to that
check transactionally. -/
def insertVideoResponse (tid ownerId : Nat) (r : ResponseInput)
    (ip ua : Option String) (db : DB) : DB :=
  { db with
    responses := db.responses ++ [videoResponseRecord tid r ip ua db.nextId],
    logs := db.logs ++
      [{ logType := LogType.videoTok, profileId := none,
         videoTokenId := some tid, activity := ActivityType.responded,
         ipAddress := ip, userAgent := ua }],
    notifications := db.notifications ++
      [{ userId := ownerId, kind := "interested_response",
         title := notificationTitle r, message := notificationMessage r }],
    nextId := db.nextId + 1 }

/-- The viewer_responses record built by the profile branch of
submitTokenResponse. -/
def profileResponseRecord (pid : Nat) (r : ResponseInput)
    (ip ua : Option String) (rid : Nat) : ViewerResponse :=
  { id := rid,
    responseType := "profile",
    profileId := some pid,
    videoTokenId := none,
    interestLevel := r.interestLevel.getD "",
    viewerName := r.name,
    viewerEmail := orNull r.email,
    viewerPhone := orNull r.phone,
    viewerInstagram := orNull r.instagram,
    preferredContactMethod := orNull r.preferredContact,
    message := orNull r.message }

/-- The insert phase of the profile branch of submitTokenResponse: the
response row plus the owner notification (no activity log, no duplicate
check for profile targets). -/
def insertProfileResponse (pid : Nat) (r : ResponseInput)
    (ip ua : Option String) (db : DB) : DB :=
  { db with
    responses := db.responses ++ [profileResponseRecord pid r ip ua db.nextId],
    notifications := db.notifications ++
      [{ userId := pid, kind := "interested_response",
         title := notificationTitle r, message := notificationMessage r }],
    nextId := db.nextId + 1 }

/-- submitTokenResponse (tokenService.js lines 141-401).  Structural checks
first (token id, name, interest level and its enum); then the profile
branch for PRO- codes (lookup, contact rule, insert) or the video branch
(lookup, status gate allowing active and viewed, duplicate check, contact
rule, insert).  Returns the response id and interest level on success. -/
def submitTokenResponse (tokenId : String) (r : ResponseInput)
    (ip ua : Option String) (db : DB) :
    Except ApiError (Nat × String) × DB :=
  if tokenId.isEmpty then
    (Except.error ⟨400, "Token ID is required"⟩, db)
  else if !present r.name || !present r.interestLevel then
    (Except.error ⟨400, "Name and interest level are required"⟩, db)
  else if !(["interested", "maybe_later", "not_interested"].contains
      (r.interestLevel.getD "")) then
    (Except.error ⟨400, "Invalid interest level"⟩, db)
  else if startsWithPRO tokenId then
    match db.profiles.find? (fun p => p.profileToken == tokenId) with
    | none => (Except.error ⟨404, "Profile not found for this token"⟩, db)
    | some p =>
      match interestedContactError r with
      | some msg => (Except.error ⟨400, msg⟩, db)
      | none =>
        (Except.ok (db.nextId, r.interestLevel.getD ""),
         insertProfileResponse p.id r ip ua db)
  else
    match db.tokens.find? (fun t => t.tokenCode == tokenId) with
    | none => (Except.error ⟨404, "Token not found"⟩, db)
    | some t =>
      if t.status ≠ TokenStatus.active ∧ t.status ≠ TokenStatus.viewed then
        (Except.error ⟨400, "Token is " ++ t.status.str⟩, db)
      else if tokenHasResponse t.id db then
        (Except.error
          ⟨400, "A response has already been submitted for this token"⟩, db)
      else
        match interestedContactError r with
        | some msg => (Except.error ⟨400, msg⟩, db)
        | none =>
          (Except.ok (db.nextId, r.interestLevel.getD ""),
           insertVideoResponse t.id t.userId r ip ua db)

/-- Whether a submitTokenResponse call returned success. -/
def submitOk (x : Except ApiError (Nat × String) × DB) : Bool :=
  match x.1 with
  | Except.ok _ => true
  | Except.error _ => false

/-- assignVideoToToken (tokenService.js lines 466-586): look the token up by
code, check ownership, require an assignable status, check the video and
its ownership, then update video_id, label, notes and status = active in
one row update (which fires the BEFORE UPDATE triggers).  The source also
admits the literal statuses unassigned and inactive in its allow-list, but
the video_tokens.status CHECK constraint makes those column values
unrepresentable, so the reachable check is status = active.  The follow-up
activity-log insert uses activity_type assigned, which the
token_activity_logs CHECK rejects; the source ignores that insert failure,
so no log row results. -/
def assignVideoToToken (now : Nat) (tokenId : String) (videoId : Nat)
    (privateLabel privateNote : Option String) (userId : Nat) (db : DB) :
    Except ApiError VideoToken × DB :=
  match db.tokens.find? (fun t => t.tokenCode == tokenId) with
  | none => (Except.error ⟨404, "Token not found"⟩, db)
  | some t =>
    if t.userId ≠ userId then
      (Except.error ⟨403, "You do not own this token"⟩, db)
    else if t.status ≠ TokenStatus.active then
      (Except.error
        ⟨400, "Token is " ++ t.status.str ++ " and cannot be assigned"⟩, db)
    else
      match db.videos.find? (fun v => v.id == videoId) with
      | none => (Except.error ⟨404, "Video not found"⟩, db)
      | some v =>
        if v.userId ≠ userId then
          (Except.error ⟨403, "You do not own this video"⟩, db)
        else
          let upd := { t with videoId := videoId,
                              privateLabel := orNull privateLabel,
                              privateNotes := orNull privateNote,
                              status := TokenStatus.active }
          let res := updateVideoTokenRow now db t upd
          (Except.ok res.2, res.1)

/-- The default of the days-valid parameter, from both
create_custom_video_with_token (p_days_valid INTEGER DEFAULT 3) and the
JS wrapper createCustomVideoWithToken (daysValid = 3). -/
def defaultDaysValid : Nat := 3

/-- The success payload of create_custom_video_with_token. -/
structure CreateCustomOk where
  videoId : Nat
  tokenId : Nat
  tokenCode : String
  expiresAt : Nat
  tokenUrl : String
deriving DecidableEq

/-- create_custom_video_with_token (newUserSeed.js lines 2140-2221): insert
the custom video, generate a token code, insert the video token with
expiry now + days_valid days, and log the creation.  The whole body is one
plpgsql function and therefore one transaction: any statement failure
(here: the videos duration CHECK, or a token_code UNIQUE violation on the
token insert) aborts the function and rolls back every prior write, so the
error branches return the store unchanged.  genCode stands for the value
produced by generate_video_token. -/
def create_custom_video_with_token (now userId : Nat)
    (videoUrl thumbnailUrl : String) (durationSeconds : Nat)
    (genCode : String) (privateLabel privateNotes : Option String)
    (daysValid : Nat) (db : DB) : Except String CreateCustomOk × DB :=
  if durationSeconds < 15 ∨ 35 < durationSeconds then
    (Except.error "videos_duration_seconds_check", db)
  else if db.tokens.any (fun t => t.tokenCode == genCode) then
    (Except.error "video_tokens_token_code_key", db)
  else
    let vid := db.nextId
    let tokid := db.nextId + 1
    let expires := now + daysValid * dayMs
    let video : Video :=
      { id := vid, userId := userId, videoUrl := some videoUrl,
        thumbnailUrl := some thumbnailUrl,
        durationSeconds := durationSeconds, videoType := "custom",
        isActive := true, isViewed := false, firstViewedAt := none,
        viewerTokenId := none }
    let token : VideoToken :=
      { id := tokid, tokenCode := genCode, status := TokenStatus.active,
        userId := userId, videoId := vid, privateLabel := privateLabel,
        privateNotes := privateNotes, createdAt := now,
        expiresAt := expires, viewedAt := none, viewerIp := none,
        viewerUserAgent := none }
    let log : ActivityLog :=
      { logType := LogType.videoTok, profileId := none,
        videoTokenId := some tokid, activity := ActivityType.created,
        ipAddress := none, userAgent := none }
    (Except.ok { videoId := vid, tokenId := tokid, tokenCode := genCode,
                 expiresAt := expires, tokenUrl := "/v/" ++ genCode },
     { db with videos := db.videos ++ [video],
               tokens := db.tokens ++ [token],
               logs := db.logs ++ [log],
               nextId := db.nextId + 2 })

/-- The token record built by generateTokens (tokenService.js lines
409-455) for each generated code: status active, owner, and an expiry
hard-coded to seven days from now (new Date(Date.now() + 7*24*60*60*1000));
generateTokens takes no days-valid parameter.  No video_id is supplied. -/
structure GeneratedTokenRecord where
  tokenCode : String
  status : TokenStatus
  userId : Nat
  expiresAt : Nat
deriving DecidableEq

/-- The map building the insert payload of generateTokens. -/
def generateTokenRecords (now userId : Nat) (codes : List String) :
    List GeneratedTokenRecord :=
  codes.map (fun c =>
    { tokenCode := c, status := TokenStatus.active, userId := userId,
      expiresAt := now + 7 * dayMs })

/-- get_response_funnel (newUserSeed.js lines 2389-2424): the four counts
(profile views from the activity log, viewed tokens of the owner, and
total / interested responses over responses referencing the owner profile
or one of the owner tokens). -/
def get_response_funnel (userId : Nat) (db : DB) : Nat × Nat × Nat × Nat :=
  ((db.logs.filter (fun l =>
      l.profileId == some userId && l.logType == LogType.profileTok &&
      l.activity == ActivityType.viewed)).length,
   (db.tokens.filter (fun t =>
      t.userId == userId && t.status == TokenStatus.viewed)).length,
   (db.responses.filter (fun x =>
      x.profileId == some userId ||
      (db.tokens.filter (fun t => t.userId == userId)).any
        (fun t => x.videoTokenId == some t.id))).length,
   ((db.responses.filter (fun x =>
      x.profileId == some userId ||
      (db.tokens.filter (fun t => t.userId == userId)).any
        (fun t => x.videoTokenId == some t.id))).filter
      (fun x => x.interestLevel == "interested")).length)

/-- The text rendering returned by get_response_funnel (RETURNS TEXT). -/
def get_response_funnel_text (userId : Nat) (db : DB) : String :=
  let c := get_response_funnel userId db
  toString c.1 ++ " profile views / " ++ toString c.2.1 ++
  " video views / " ++ toString c.2.2.1 ++ " responses / " ++
  toString c.2.2.2 ++ " interested"

/-- The state-changing operations of the token core, each one atomic step
(one transaction or one serialized request). -/
inductive Op
  | redeem (now : Nat) (code : String) (ip ua : Option String)
  | assign (now : Nat) (code : String) (videoId : Nat)
      (label note : Option String) (userId : Nat)
  | submit (code : String) (r : ResponseInput) (ip ua : Option String)
  | createCustom (now userId : Nat) (videoUrl thumbnailUrl : String)
      (durationSeconds : Nat) (genCode : String)
      (label note : Option String) (daysValid : Nat)
  | generate (now : Nat) (codes : List String) (userId : Nat)

/-- The store after one operation.  The generate case is the bulk insert of
generateTokens: its records carry no video_id, which the video_tokens
video_id NOT NULL constraint rejects, so the insert fails and the store is
unchanged (the service surfaces a 500). -/
def step (db : DB) : Op → DB
  | .redeem now code ip ua => (access_video_by_token now code ip ua db).2
  | .assign now code vid label note userId =>
      (assignVideoToToken now code vid label note userId db).2
  | .submit code r ip ua => (submitTokenResponse code r ip ua db).2
  | .createCustom now userId vu tu d g label note dv =>
      (create_custom_video_with_token now userId vu tu d g label note dv db).2
  | .generate _ _ _ => db

/-- The store after a sequence of operations. -/
def run (db : DB) : List Op → DB
  | [] => db
  | op :: ops => run (step db op) ops

/-- Well-formedness the schema enforces: primary keys and the token_code
UNIQUE constraint are duplicate-free, and every allocated id is below the
allocation counter. -/
def WF (db : DB) : Prop :=
  (db.tokens.map VideoToken.id).Nodup ∧
  (db.tokens.map VideoToken.tokenCode).Nodup ∧
  (∀ t ∈ db.tokens, t.id < db.nextId) ∧
  (db.videos.map Video.id).Nodup ∧
  (∀ v ∈ db.videos, v.id < db.nextId)

/-- The viewed activity-log entry appended by the viewing trigger on a
successful redemption. -/
def viewedLogOf (t : VideoToken) (ip ua : Option String) : ActivityLog :=
  { logType := LogType.videoTok, profileId := none,
    videoTokenId := some t.id, activity := ActivityType.viewed,
    ipAddress := ip, userAgent := ua }

/-- The token row as stored by a successful redemption of t. -/
def viewedRowOf (now : Nat) (t : VideoToken) (ip ua : Option String) :
    VideoToken :=
  { t with status := TokenStatus.viewed, viewerIp := ip,
           viewerUserAgent := ua, viewedAt := some now }

/-- The video row as stored by the viewing trigger for token t. -/
def viewedVideoOf (now : Nat) (t : VideoToken) (v : Video) : Video :=
  { v with isViewed := true, firstViewedAt := some now,
           viewerTokenId := some t.id }

/-! Concrete stores and inputs used by the closed theorems and witnesses. -/

/-- An empty store. -/
def emptyDB : DB := ⟨[], [], [], [], [], [], 0⟩

/-- Expiry scenario: one active token whose expiry (1000) is in the past at
redemption time (2000). -/
def c2video : Video :=
  ⟨10, 2, some "https://cdn/v.mp4", some "https://cdn/t.jpg", 20, "custom",
   true, false, none, none⟩

def c2token : VideoToken :=
  ⟨1, "VID-aaaa11", TokenStatus.active, 2, 10, none, none, 0, 1000,
   none, none, none⟩

def c2db : DB := ⟨[], [c2video], [c2token], [], [], [], 11⟩

/-- Race scenario: one active token with no responses yet. -/
def c4token : VideoToken :=
  ⟨1, "VID-dddd33", TokenStatus.active, 2, 10, none, none, 0, 999999999999,
   none, none, none⟩

def c4db : DB := ⟨[], [], [c4token], [], [], [], 50⟩

def c4inputA : ResponseInput :=
  ⟨some "Avery", some "avery@example.com", none, none, none,
   some "interested", none⟩

def c4inputB : ResponseInput :=
  ⟨some "Blake", some "blake@example.com", none, none, none,
   some "interested", none⟩

/-- Re-pointing scenario: an active token bound to video 10 while the owner
also has video 11. -/
def c9videoA : Video := ⟨10, 5, none, none, 20, "custom", true, false, none, none⟩

def c9videoB : Video := ⟨11, 5, none, none, 20, "custom", true, false, none, none⟩

def c9token : VideoToken :=
  ⟨1, "VID-cccc22", TokenStatus.active, 5, 10, none, none, 0, 999999999999,
   none, none, none⟩

def c9db : DB := ⟨[], [c9videoA, c9videoB], [c9token], [], [], [], 20⟩

/-- Exactly-once scenario: one active token bound to one video. -/
def c1video : Video :=
  ⟨10, 2, some "https://cdn/c1.mp4", none, 20, "custom", true, false,
   none, none⟩

def c1token : VideoToken :=
  ⟨1, "VID-w11111", TokenStatus.active, 2, 10, none, none, 0, 999999999999,
   none, none, none⟩

def c1db : DB := ⟨[], [c1video], [c1token], [], [], [], 11⟩

/-- Monotonicity scenario: a token already in the terminal viewed state,
exercised by one operation of every kind. -/
def c3video : Video :=
  ⟨10, 2, none, none, 20, "custom", true, true, some 100, some 1⟩

def c3token : VideoToken :=
  ⟨1, "VID-t33333", TokenStatus.viewed, 2, 10, none, none, 0, 5000,
   some 100, none, none⟩

def c3db : DB := ⟨[], [c3video], [c3token], [], [], [], 11⟩

def c3input : ResponseInput :=
  ⟨some "Cam", none, none, none, none, some "not_interested", none⟩

def c3ops : List Op :=
  [Op.redeem 200 "VID-t33333" none none,
   Op.assign 300 "VID-t33333" 10 none none 2,
   Op.submit "VID-t33333" c3input none none,
   Op.generate 400 ["VID-g10101"] 2,
   Op.createCustom 500 2 "https://cdn/u.mp4" "https://cdn/u.jpg" 20
     "VID-h20202" none none 3]

/-- Atomicity scenario store. -/
def c5db : DB := ⟨[], [], [], [], [], [], 100⟩

/-- Contact-invariant scenario: one active token, three inputs. -/
def c6token : VideoToken :=
  ⟨1, "VID-r66666", TokenStatus.active, 2, 10, none, none, 0, 999999999999,
   none, none, none⟩

def c6db : DB := ⟨[], [], [c6token], [], [], [], 30⟩

def c6good : ResponseInput :=
  ⟨some "Drew", none, none, none, none, some "not_interested", none⟩

def c6bad : ResponseInput :=
  ⟨some "Drew", none, none, none, none, some "interested", none⟩

def c6badPref : ResponseInput :=
  ⟨some "Drew", none, some "5551234", none, some "email",
   some "interested", none⟩

/-- Funnel scenario: 3 profile views, 2 viewed tokens, 1 interested
response on one of them. -/
def c8log : ActivityLog :=
  ⟨LogType.profileTok, some 2, none, ActivityType.viewed, none, none⟩

def c8tokenA : VideoToken :=
  ⟨1, "VID-q81111", TokenStatus.viewed, 2, 10, none, none, 0, 5000,
   some 50, none, none⟩

def c8tokenB : VideoToken :=
  ⟨3, "VID-q82222", TokenStatus.viewed, 2, 11, none, none, 0, 5000,
   some 60, none, none⟩

def c8resp : ViewerResponse :=
  ⟨5, "video", none, some 1, "interested", some "Eli",
   some "eli@example.com", none, none, none, none⟩

def c8db : DB :=
  ⟨[], [], [c8tokenA, c8tokenB], [c8log, c8log, c8log], [c8resp], [], 20⟩

/-- Status-gate scenario: an expired and a viewed token. -/
def c10tokenExpired : VideoToken :=
  ⟨1, "VID-x10101", TokenStatus.expired, 2, 10, none, none, 0, 5000,
   none, none, none⟩

def c10tokenViewed : VideoToken :=
  ⟨2, "VID-y10102", TokenStatus.viewed, 2, 10, none, none, 0, 5000,
   some 70, none, none⟩

def c10db : DB :=
  ⟨[], [], [c10tokenExpired, c10tokenViewed], [], [], [], 40⟩

def c10input : ResponseInput :=
  ⟨some "Finn", none, none, none, none, some "maybe_later", none⟩

/-- Duplicate-rejection scenario: the race store with one stored response. -/
def c4resp0 : ViewerResponse :=
  ⟨9, "video", none, some 1, "interested", some "Gale",
   some "gale@example.com", none, none, none, none⟩

def c4dbDup : DB := ⟨[], [], [c4token], [], [c4resp0], [], 51⟩

/-- Profile-target scenario: a profile that already has a stored response. -/
def c4profile : Profile := ⟨7, "PRO-p4444444"⟩

def c4respPro : ViewerResponse :=
  ⟨8, "profile", some 7, none, "interested", some "Haru",
   some "haru@example.com", none, none, none, none⟩

def c4dbPro : DB := ⟨[c4profile], [], [], [], [c4respPro], [], 61⟩

/-! Helper lemmas about lookups and row replacement. -/

/-- Lookup by a duplicate-free key returns the member carrying that key. -/
theorem find_key_eq {α β : Type} [BEq β] [LawfulBEq β] (key : α → β)
    (l : List α) (a : α) (k : β) (hnd : (l.map key).Nodup)
    (ha : a ∈ l) (hk : key a = k) :
    l.find? (fun x => key x == k) = some a := by
  induction l with
  | nil => cases ha
  | cons b tl ih =>
    rw [List.map_cons] at hnd
    obtain ⟨hnotin, hndtl⟩ := List.nodup_cons.mp hnd
    rcases List.mem_cons.mp ha with h | h
    · subst h
      have : (key a == k) = true := by simpa using hk
      simp [List.find?, this]
    · have hb : (key b == k) = false := by
        rw [beq_eq_false_iff_ne]
        intro e
        exact hnotin (by simpa [e, hk] using List.mem_map_of_mem key h)
      simp [List.find?, hb]
      exact ih hndtl h

/-- After replacing the row with the id of a member t by a row with the same
code, lookup by that code returns the replacement. -/
theorem find_replaced {l : List VideoToken} {t n : VideoToken} {code : String}
    (hndid : (l.map VideoToken.id).Nodup)
    (hndcode : (l.map VideoToken.tokenCode).Nodup)
    (ht : t ∈ l) (hc : t.tokenCode = code) (hn : n.tokenCode = code) :
    (l.map (fun u => if u.id == t.id then n else u)).find?
      (fun u => u.tokenCode == code) = some n := by
  induction l with
  | nil => cases ht
  | cons b tl ih =>
    rw [List.map_cons] at hndid hndcode
    obtain ⟨hidnotin, hndid'⟩ := List.nodup_cons.mp hndid
    obtain ⟨hcodenotin, hndcode'⟩ := List.nodup_cons.mp hndcode
    rcases List.mem_cons.mp ht with h | h
    · have h1 : (b.id == t.id) = true := by simp [h]
      have h2 : (n.tokenCode == code) = true := by simpa using hn
      rw [List.map_cons]
      have hfb : (if (b.id == t.id) = true then n else b) = n := by
        simp [h1]
      rw [hfb]
      exact List.find?_cons_of_pos _ h2
    · have hbne : (b.id == t.id) = false := by
        rw [beq_eq_false_iff_ne]
        intro e
        exact hidnotin (by simpa [e] using List.mem_map_of_mem VideoToken.id h)
      have hbc : (b.tokenCode == code) = false := by
        rw [beq_eq_false_iff_ne]
        intro e
        exact hcodenotin
          (by simpa [e, hc] using List.mem_map_of_mem VideoToken.tokenCode h)
      rw [List.map_cons]
      have hfb : (if (b.id == t.id) = true then n else b) = b := by
        simp [hbne]
      rw [hfb]
      refine Eq.trans (List.find?_cons_of_neg _ ?_) (ih hndid' hndcode' h)
      simp [hbc]

/-- Mapping a row-replacement that preserves a key leaves the key column
unchanged, provided the target id is duplicate-free. -/
theorem map_key_replace {β : Type} (key : VideoToken → β)
    {l : List VideoToken} {t n : VideoToken}
    (hnd : (l.map VideoToken.id).Nodup) (ht : t ∈ l)
    (hkey : key n = key t) :
    (l.map (fun u => if u.id == t.id then n else u)).map key = l.map key := by
  rw [List.map_map]
  apply List.map_congr_left
  intro u hu
  by_cases h : (u.id == t.id) = true
  · have : u = t :=
      List.inj_on_of_nodup_map hnd hu ht (by simpa using h)
    simp [Function.comp, h, hkey, this]
  · simp [Function.comp, eq_false_of_ne_true h]

/-- Mapping a pointwise key-preserving function leaves the key column
unchanged. -/
theorem map_key_pointwise {α β : Type} (key : α → β) (f : α → α)
    (l : List α) (h : ∀ a, key (f a) = key a) :
    (l.map f).map key = l.map key := by
  rw [List.map_map]
  exact List.map_congr_left (fun a _ => h a)

/-- Redeeming a token whose row is active succeeds and performs exactly the
writes of the update plus its triggers. -/
theorem access_active (now : Nat) (code : String) (ip ua : Option String)
    (db : DB) (t : VideoToken)
    (hfind : db.tokens.find? (fun u => u.tokenCode == code) = some t)
    (hst : t.status = TokenStatus.active) :
    access_video_by_token now code ip ua db =
      (RedeemResult.success t.id t.tokenCode
         (db.videos.find? (fun v => v.id == t.videoId)),
       { db with
         tokens := db.tokens.map (fun u =>
           if u.id == t.id then viewedRowOf now t ip ua else u),
         videos := db.videos.map (fun v =>
           if v.id == t.videoId then viewedVideoOf now t v else v),
         logs := db.logs ++ [viewedLogOf t ip ua] }) := by
  simp [access_video_by_token, hfind, hst, updateVideoTokenRow,
        handle_video_token_expiration, handle_video_token_viewing,
        viewedRowOf, viewedVideoOf, viewedLogOf]

/-- Once the row a code resolves to is viewed, every further redemption
attempt fails with the already-viewed message and writes nothing. -/
theorem redeemTrace_viewed (code : String) (db : DB) (t : VideoToken)
    (hfind : db.tokens.find? (fun u => u.tokenCode == code) = some t)
    (hst : t.status = TokenStatus.viewed) :
    ∀ qs : List RedeemReq, redeemTrace code db qs =
      (qs.map (fun _ => RedeemResult.failure
        "This video has already been viewed and is no longer available"),
       db) := by
  intro qs
  induction qs with
  | nil => rfl
  | cons q qs ih =>
    have hacc : access_video_by_token q.now code q.ip q.ua db =
        (RedeemResult.failure
          "This video has already been viewed and is no longer available",
         db) := by
      simp [access_video_by_token, hfind, hst]
    simp [redeemTrace, hacc, ih]

/-- C1: Exactly-once consumption.  For an active VideoToken, any sequence of
two or more redemption attempts on its code (each one atomic
access_video_by_token transaction, serialized by the FOR UPDATE row lock)
has exactly one success, namely the first attempt, which returns the video
payload; every later attempt receives the definitive already-viewed
rejection; the videos table is written exactly once, by the first attempt,
setting is_viewed and pointing viewer_token_id at the one token; and the
token row ends viewed with viewed_at stamped. -/
theorem c1_exactly_once_consumption
    (db : DB) (t : VideoToken) (v : Video) (q : RedeemReq)
    (qs : List RedeemReq)
    (hwf : WF db) (ht : t ∈ db.tokens) (hst : t.status = TokenStatus.active)
    (hv : v ∈ db.videos) (hvid : v.id = t.videoId) (hqs : qs ≠ []) :
    ((redeemTrace t.tokenCode db (q :: qs)).1.countP
        RedeemResult.isSuccess = 1) ∧
    ((redeemTrace t.tokenCode db (q :: qs)).1.head? =
      some (RedeemResult.success t.id t.tokenCode (some v))) ∧
    (∀ x ∈ (redeemTrace t.tokenCode db (q :: qs)).1.tail,
      x = RedeemResult.failure
        "This video has already been viewed and is no longer available") ∧
    ((redeemTrace t.tokenCode db (q :: qs)).2.videos =
      db.videos.map (fun w =>
        if w.id == t.videoId then viewedVideoOf q.now t w else w)) ∧
    (∃ w ∈ (redeemTrace t.tokenCode db (q :: qs)).2.videos,
      w.id = t.videoId ∧ w.isViewed = true ∧
      w.viewerTokenId = some t.id ∧ w.firstViewedAt = some q.now) ∧
    (∃ u ∈ (redeemTrace t.tokenCode db (q :: qs)).2.tokens,
      u.id = t.id ∧ u.status = TokenStatus.viewed ∧
      u.viewedAt = some q.now) := by
  obtain ⟨hndid, hndcode, hbound, hndvid, hvbound⟩ := hwf
  have hfind : db.tokens.find? (fun u => u.tokenCode == t.tokenCode)
      = some t :=
    find_key_eq VideoToken.tokenCode db.tokens t t.tokenCode hndcode ht rfl
  have hvfind : db.videos.find? (fun w => w.id == t.videoId) = some v :=
    find_key_eq Video.id db.videos v t.videoId hndvid hv hvid
  set db1 : DB :=
    { db with
      tokens := db.tokens.map (fun u =>
        if u.id == t.id then viewedRowOf q.now t q.ip q.ua else u),
      videos := db.videos.map (fun w =>
        if w.id == t.videoId then viewedVideoOf q.now t w else w),
      logs := db.logs ++ [viewedLogOf t q.ip q.ua] } with hdb1
  have hstep1 : access_video_by_token q.now t.tokenCode q.ip q.ua db =
      (RedeemResult.success t.id t.tokenCode (some v), db1) := by
    rw [access_active q.now t.tokenCode q.ip q.ua db t hfind hst, hvfind]
  have hfind1 : db1.tokens.find? (fun u => u.tokenCode == t.tokenCode)
      = some (viewedRowOf q.now t q.ip q.ua) := by
    rw [hdb1]
    exact find_replaced hndid hndcode ht rfl rfl
  have htrace : redeemTrace t.tokenCode db1 qs =
      (qs.map (fun _ => RedeemResult.failure
        "This video has already been viewed and is no longer available"),
       db1) :=
    redeemTrace_viewed t.tokenCode db1 (viewedRowOf q.now t q.ip q.ua)
      hfind1 rfl qs
  have hred : redeemTrace t.tokenCode db (q :: qs) =
      (RedeemResult.success t.id t.tokenCode (some v) ::
        qs.map (fun _ => RedeemResult.failure
          "This video has already been viewed and is no longer available"),
       db1) := by
    simp [redeemTrace, hstep1, htrace]
  rw [hred]
  refine ⟨?_, rfl, ?_, ?_, ?_, ?_⟩
  · have hz : (qs.map (fun _ => RedeemResult.failure
        "This video has already been viewed and is no longer available")).countP
        RedeemResult.isSuccess = 0 := by
      rw [List.countP_eq_zero]
      intro x hx
      obtain ⟨y, hy, hxy⟩ := List.mem_map.mp hx
      simp [← hxy, RedeemResult.isSuccess]
    simp [List.countP_cons, hz, RedeemResult.isSuccess]
  · intro x hx
    simp at hx
    exact hx.2
  · rw [hdb1]
  · refine ⟨viewedVideoOf q.now t v, ?_, by simp [viewedVideoOf, hvid],
      by simp [viewedVideoOf], by simp [viewedVideoOf],
      by simp [viewedVideoOf]⟩
    rw [hdb1]
    exact List.mem_map.mpr ⟨v, hv, by simp [hvid]⟩
  · refine ⟨viewedRowOf q.now t q.ip q.ua, ?_, by simp [viewedRowOf],
      by simp [viewedRowOf], by simp [viewedRowOf]⟩
    rw [hdb1]
    exact List.mem_map.mpr ⟨t, ht, by simp⟩

/-- C1 witness: two attempts on the concrete active token c1token, the
first at time 100, the second at time 200: one success. -/
theorem c1_exactly_once_consumption_witness :
    ((redeemTrace "VID-w11111" c1db
        [⟨100, none, none⟩, ⟨200, none, none⟩]).1.countP
      RedeemResult.isSuccess = 1) ∧
    ((redeemTrace "VID-w11111" c1db
        [⟨100, none, none⟩, ⟨200, none, none⟩]).1.head? =
      some (RedeemResult.success 1 "VID-w11111" (some c1video))) :=
  ⟨(c1_exactly_once_consumption c1db c1token c1video ⟨100, none, none⟩
      [⟨200, none, none⟩] (by unfold WF; decide) (by decide) (by decide)
      (by decide) (by decide) (by decide)).1,
   (c1_exactly_once_consumption c1db c1token c1video ⟨100, none, none⟩
      [⟨200, none, none⟩] (by unfold WF; decide) (by decide) (by decide)
      (by decide) (by decide) (by decide)).2.1⟩

/-- C2: the code contradicts lazy expiry.  The token c2token was created
with expiry 1000 and is redeemed at time 2000 > 1000 while its status
column still reads active: access_video_by_token checks only the status
column (never expires_at), and the expiration trigger does not fire
because the redeeming update writes status = viewed, so the attempt
succeeds, discloses the video, marks the token viewed, and logs a viewed
(not expired) activity event. -/
theorem c2_expired_active_token_redeems_successfully :
    1000 < 2000 ∧
    (access_video_by_token 2000 "VID-aaaa11" none none c2db).1 =
      RedeemResult.success 1 "VID-aaaa11" (some c2video) ∧
    ((access_video_by_token 2000 "VID-aaaa11" none none c2db).2.tokens.map
      VideoToken.status) = [TokenStatus.viewed] ∧
    ((access_video_by_token 2000 "VID-aaaa11" none none c2db).2.logs.map
      ActivityLog.activity) = [ActivityType.viewed] := by
  decide

/-- C4 counterexample: the duplicate check of submitTokenResponse is a
separate store read issued before the insert, with no transaction around
the pair and no unique constraint on viewer_responses.video_token_id, so
the interleaving check-A, check-B, insert-A, insert-B of two concurrent
submissions is realizable and stores two ViewerResponses for one token.
Both checks run against the same store c4db and pass; both inserts then
land.  The first conjunct ties the phases to the function: a sequential
call is exactly check-then-insert. -/
theorem c4_concurrent_duplicate_counterexample :
    (submitTokenResponse "VID-dddd33" c4inputA none none c4db).2 =
      insertVideoResponse 1 2 c4inputA none none c4db ∧
    tokenHasResponse 1 c4db = false ∧
    ((insertVideoResponse 1 2 c4inputB none none
        (insertVideoResponse 1 2 c4inputA none none c4db)).responses.filter
      (fun x => x.videoTokenId == some 1)).length = 2 := by
  decide

/-- C7 counterexample: generateTokens hard-codes the expiry to
now + 7 days (not now + daysValid with default 3; it has no daysValid
parameter), and create_custom_video_with_token accepts daysValid = 1000
unchanged (no bound at any sane maximum such as 30). -/
theorem c7_issuance_expiry_counterexample :
    (generateTokenRecords 0 1 ["VID-abc123"]).map
      GeneratedTokenRecord.expiresAt = [7 * dayMs] ∧
    7 * dayMs ≠ 3 * dayMs ∧
    (create_custom_video_with_token 0 1 "https://cdn/u.mp4"
        "https://cdn/u.jpg" 20 "VID-xyz789" none none 1000 emptyDB).1 =
      Except.ok ⟨0, 1, "VID-xyz789", 1000 * dayMs, "/v/VID-xyz789"⟩ ∧
    30 < 1000 := by
  decide

/-- C9 counterexample: assignVideoToToken changes which video an existing
token points to.  c9token was created bound to video 10; its owner assigns
video 11 to it and the stored row now references video 11. -/
theorem c9_video_reference_counterexample :
    c9token.videoId = 10 ∧
    ((assignVideoToToken 5 "VID-cccc22" 11 none none 5 c9db).2.tokens.map
      VideoToken.videoId) = [11] := by
  decide

/-- C5: composite creation atomicity.  create_custom_video_with_token is
one transaction: an error branch (duration CHECK, token-code UNIQUE
violation) leaves the store exactly as it was; a success leaves both the
video and a token referencing it; and in every case the operation creates
no new orphaned video (a video row with no token whose video_id points at
it). -/
theorem c5_composite_creation_atomicity
    (now userId : Nat) (videoUrl thumbnailUrl : String)
    (durationSeconds : Nat) (genCode : String)
    (privateLabel privateNotes : Option String) (daysValid : Nat)
    (db : DB) :
    (∀ e db2, create_custom_video_with_token now userId videoUrl
        thumbnailUrl durationSeconds genCode privateLabel privateNotes
        daysValid db = (Except.error e, db2) → db2 = db) ∧
    (∀ out db2, create_custom_video_with_token now userId videoUrl
        thumbnailUrl durationSeconds genCode privateLabel privateNotes
        daysValid db = (Except.ok out, db2) →
      (∃ v ∈ db2.videos, v.id = out.videoId) ∧
      (∃ tk ∈ db2.tokens, tk.videoId = out.videoId)) ∧
    (∀ v ∈ (create_custom_video_with_token now userId videoUrl
        thumbnailUrl durationSeconds genCode privateLabel privateNotes
        daysValid db).2.videos,
      (∀ tk ∈ (create_custom_video_with_token now userId videoUrl
          thumbnailUrl durationSeconds genCode privateLabel privateNotes
          daysValid db).2.tokens, tk.videoId ≠ v.id) →
      v ∈ db.videos ∧ ∀ tk ∈ db.tokens, tk.videoId ≠ v.id) := by
  unfold create_custom_video_with_token
  split
  · refine ⟨?_, ?_, ?_⟩
    · intro e db2 h
      injection h with h1 h2
      exact h2.symm
    · intro out db2 h
      injection h with h1 h2
      exact Except.noConfusion h1
    · intro v hv hnone
      exact ⟨hv, fun tk htk => hnone tk htk⟩
  · split
    · refine ⟨?_, ?_, ?_⟩
      · intro e db2 h
        injection h with h1 h2
        exact h2.symm
      · intro out db2 h
        injection h with h1 h2
        exact Except.noConfusion h1
      · intro v hv hnone
        exact ⟨hv, fun tk htk => hnone tk htk⟩
    · refine ⟨?_, ?_, ?_⟩
      · intro e db2 h
        injection h with h1 h2
        exact Except.noConfusion h1
      · intro out db2 h
        injection h with h1 h2
        injection h1 with h1
        subst h1
        subst h2
        refine ⟨⟨_, List.mem_append_right _ (List.mem_singleton.mpr rfl), rfl⟩,
          ⟨_, List.mem_append_right _ (List.mem_singleton.mpr rfl), rfl⟩⟩
      · intro v hv hnone
        rcases List.mem_append.mp hv with hold | hnew
        · exact ⟨hold, fun tk htk => hnone tk (List.mem_append_left _ htk)⟩
        · have hveq := List.mem_singleton.mp hnew
          subst hveq
          exact absurd rfl
            (hnone _ (List.mem_append_right _ (List.mem_singleton.mpr rfl)))

/-- C5 witness: on the concrete store c5db, an invocation rejected by the
duration CHECK leaves the store unchanged, and a successful invocation
leaves a video with id 100 and a token referencing it. -/
theorem c5_composite_creation_atomicity_witness :
    (create_custom_video_with_token 0 7 "https://cdn/u.mp4"
        "https://cdn/u.jpg" 40 "VID-w55555" none none 3 c5db).2 = c5db ∧
    (∃ v ∈ (create_custom_video_with_token 0 7 "https://cdn/u.mp4"
        "https://cdn/u.jpg" 20 "VID-w55555" none none 3 c5db).2.videos,
      v.id = 100) ∧
    (∃ tk ∈ (create_custom_video_with_token 0 7 "https://cdn/u.mp4"
        "https://cdn/u.jpg" 20 "VID-w55555" none none 3 c5db).2.tokens,
      tk.videoId = 100) :=
  ⟨(c5_composite_creation_atomicity 0 7 "https://cdn/u.mp4"
      "https://cdn/u.jpg" 40 "VID-w55555" none none 3 c5db).1
      "videos_duration_seconds_check"
      ((create_custom_video_with_token 0 7 "https://cdn/u.mp4"
        "https://cdn/u.jpg" 40 "VID-w55555" none none 3 c5db).2) (by decide),
   ((c5_composite_creation_atomicity 0 7 "https://cdn/u.mp4"
      "https://cdn/u.jpg" 20 "VID-w55555" none none 3 c5db).2.1
      ⟨100, 101, "VID-w55555", 3 * dayMs, "/v/VID-w55555"⟩
      ((create_custom_video_with_token 0 7 "https://cdn/u.mp4"
        "https://cdn/u.jpg" 20 "VID-w55555" none none 3 c5db).2)
      (by decide)).1,
   ((c5_composite_creation_atomicity 0 7 "https://cdn/u.mp4"
      "https://cdn/u.jpg" 20 "VID-w55555" none none 3 c5db).2.1
      ⟨100, 101, "VID-w55555", 3 * dayMs, "/v/VID-w55555"⟩
      ((create_custom_video_with_token 0 7 "https://cdn/u.mp4"
        "https://cdn/u.jpg" 20 "VID-w55555" none none 3 c5db).2)
      (by decide)).2⟩

/-- C7 amended: create_custom_video_with_token computes the expiry as
now + days_valid days (caller-supplied, default constant 3) with no upper
bound, and generateTokens hard-codes every record it builds to
now + 7 days. -/
theorem c7_issuance_expiry_amended
    (now userId : Nat) (videoUrl thumbnailUrl : String)
    (durationSeconds : Nat) (genCode : String)
    (label notes : Option String) (daysValid : Nat) (db : DB)
    (codes : List String)
    (hdur1 : 15 ≤ durationSeconds) (hdur2 : durationSeconds ≤ 35)
    (hfresh : db.tokens.any (fun t => t.tokenCode == genCode) = false) :
    ((create_custom_video_with_token now userId videoUrl thumbnailUrl
        durationSeconds genCode label notes daysValid db).1 =
      Except.ok ⟨db.nextId, db.nextId + 1, genCode,
        now + daysValid * dayMs, "/v/" ++ genCode⟩) ∧
    (∃ tk ∈ (create_custom_video_with_token now userId videoUrl
        thumbnailUrl durationSeconds genCode label notes daysValid
        db).2.tokens,
      tk.createdAt = now ∧ tk.expiresAt = now + daysValid * dayMs) ∧
    defaultDaysValid = 3 ∧
    (∀ c ∈ generateTokenRecords now userId codes,
      c.expiresAt = now + 7 * dayMs) := by
  have hc : ¬ (durationSeconds < 15 ∨ 35 < durationSeconds) := by omega
  have hc2 : ¬ ((db.tokens.any (fun t => t.tokenCode == genCode)) = true) := by
    simp [hfresh]
  refine ⟨?_, ?_, rfl, ?_⟩
  · unfold create_custom_video_with_token
    rw [if_neg hc, if_neg hc2]
  · unfold create_custom_video_with_token
    rw [if_neg hc, if_neg hc2]
    exact ⟨_, List.mem_append_right _ (List.mem_singleton.mpr rfl), rfl, rfl⟩
  · intro c hcm
    unfold generateTokenRecords at hcm
    obtain ⟨s, hs, rfl⟩ := List.mem_map.mp hcm
    rfl

/-- C7 amended witness: a concrete successful creation with daysValid = 5
expires 5 days from creation. -/
theorem c7_issuance_expiry_amended_witness :
    (create_custom_video_with_token 0 1 "https://cdn/u.mp4"
        "https://cdn/u.jpg" 20 "VID-g77777" none none 5 emptyDB).1 =
      Except.ok ⟨0, 1, "VID-g77777", 0 + 5 * dayMs, "/v/VID-g77777"⟩ :=
  (c7_issuance_expiry_amended 0 1 "https://cdn/u.mp4" "https://cdn/u.jpg"
    20 "VID-g77777" none none 5 emptyDB ["VID-g77777"]
    (by decide) (by decide) (by decide)).1

/-- C8: funnel correctness.  For an owner p whose store holds exactly 3
viewed profile-type activity-log entries for p, exactly 2 viewed
VideoTokens owned by p, and a single ViewerResponse, that response being
interested and referencing one of the owner's viewed tokens,
get_response_funnel returns profileViews 3, videoViews 2,
totalResponses 1, interestedResponses 1. -/
theorem c8_funnel_correctness (db : DB) (p tid : Nat)
    (r0 : ViewerResponse) (tk : VideoToken)
    (hpv : (db.logs.filter (fun l => l.profileId == some p &&
        l.logType == LogType.profileTok &&
        l.activity == ActivityType.viewed)).length = 3)
    (hvv : (db.tokens.filter (fun t => t.userId == p &&
        t.status == TokenStatus.viewed)).length = 2)
    (hresp : db.responses = [r0])
    (hr0t : r0.videoTokenId = some tid)
    (hr0i : r0.interestLevel = "interested")
    (htkm : tk ∈ db.tokens) (htkid : tk.id = tid) (htku : tk.userId = p)
    (htks : tk.status = TokenStatus.viewed) :
    get_response_funnel p db = (3, 2, 1, 1) := by
  have hany : (db.tokens.filter (fun t => t.userId == p)).any
      (fun t => r0.videoTokenId == some t.id) = true := by
    rw [List.any_eq_true]
    exact ⟨tk, List.mem_filter.mpr ⟨htkm, by simp [htku]⟩,
      by simp [hr0t, htkid]⟩
  have hflt : db.responses.filter (fun x =>
      x.profileId == some p ||
      (db.tokens.filter (fun t => t.userId == p)).any
        (fun t => x.videoTokenId == some t.id)) = [r0] := by
    have hpred : (r0.profileId == some p ||
        (db.tokens.filter (fun t => t.userId == p)).any
          (fun t => r0.videoTokenId == some t.id)) = true := by
      rw [hany, Bool.or_true]
    rw [hresp, List.filter_cons, hpred]
    simp
  unfold get_response_funnel
  rw [hpv, hvv, hflt]
  simp [hr0i]

/-- C8 witness: the concrete store c8db realizes the funnel scenario. -/
theorem c8_funnel_correctness_witness :
    get_response_funnel 2 c8db = (3, 2, 1, 1) :=
  c8_funnel_correctness c8db 2 1 c8resp c8tokenA (by decide) (by decide)
    rfl (by decide) (by decide) (by decide) (by decide) (by decide)
    (by decide)

/-- An interested response with no contact channel fails the contact rule
with the at-least-one-contact message. -/
theorem contactError_no_contacts (r : ResponseInput)
    (hil : r.interestLevel = some "interested")
    (he : present r.email = false) (hp : present r.phone = false)
    (hi : present r.instagram = false) :
    interestedContactError r =
      some "At least one contact method (email, phone, or Instagram) is required for interested responses" := by
  unfold interestedContactError
  rw [hil]
  simp [he, hp, hi]

/-- The contact rule never fires for a non-interested response. -/
theorem contactError_not_interested (r : ResponseInput)
    (hil : r.interestLevel ≠ some "interested") :
    interestedContactError r = none := by
  unfold interestedContactError
  have : (r.interestLevel == some "interested") = false := by
    rw [beq_eq_false_iff_ne]
    exact hil
  rw [this]
  simp

/-- An interested response whose preferred-contact selector names an absent
channel fails the contact rule. -/
theorem contactError_preferred_mismatch (r : ResponseInput)
    (hil : r.interestLevel = some "interested")
    (hmis : (r.preferredContact = some "email" ∧ present r.email = false) ∨
            (r.preferredContact = some "phone" ∧ present r.phone = false) ∨
            (r.preferredContact = some "instagram" ∧
              present r.instagram = false)) :
    ∃ msg, interestedContactError r = some msg := by
  unfold interestedContactError
  rw [hil]
  rcases hmis with ⟨hpc, hch⟩ | ⟨hpc, hch⟩ | ⟨hpc, hch⟩ <;>
      rw [hpc] <;> simp [present, hch] <;> split <;> simp <;>
    exact ⟨by decide, by simpa [present] using hch⟩

/-- When the contact rule rejects the input, submitTokenResponse never
succeeds and writes nothing, whatever the store contents (every code path
re-checks the rule before its insert). -/
theorem submit_fails_of_contactError (tokenId : String) (r : ResponseInput)
    (ip ua : Option String) (db : DB) (msg : String)
    (hce : interestedContactError r = some msg) :
    submitOk (submitTokenResponse tokenId r ip ua db) = false ∧
    (submitTokenResponse tokenId r ip ua db).2 = db := by
  unfold submitTokenResponse
  repeat' split
  all_goals first | exact ⟨rfl, rfl⟩ | simp_all

/-- C6: contact invariant of SubmitResponse.  (1) An interested submission
with no email, phone or instagram never succeeds and stores nothing.
(2) A not-interested submission with no contact fields succeeds when the
other inputs are valid (name present, token found, active, no prior
response).  (3) An interested submission whose preferred-contact selector
names an absent channel never succeeds and stores nothing. -/
theorem c6_contact_invariant :
    (∀ (tokenId : String) (r : ResponseInput) (ip ua : Option String)
        (db : DB),
      r.interestLevel = some "interested" →
      present r.email = false → present r.phone = false →
      present r.instagram = false →
      submitOk (submitTokenResponse tokenId r ip ua db) = false ∧
      (submitTokenResponse tokenId r ip ua db).2 = db) ∧
    (∀ (r : ResponseInput) (ip ua : Option String) (db : DB)
        (t : VideoToken),
      db.tokens.find? (fun u => u.tokenCode == t.tokenCode) = some t →
      t.tokenCode.isEmpty = false →
      startsWithPRO t.tokenCode = false →
      t.status = TokenStatus.active →
      tokenHasResponse t.id db = false →
      present r.name = true →
      r.interestLevel = some "not_interested" →
      present r.email = false → present r.phone = false →
      present r.instagram = false →
      (submitTokenResponse t.tokenCode r ip ua db).1 =
        Except.ok (db.nextId, "not_interested")) ∧
    (∀ (tokenId : String) (r : ResponseInput) (ip ua : Option String)
        (db : DB),
      r.interestLevel = some "interested" →
      ((r.preferredContact = some "email" ∧ present r.email = false) ∨
       (r.preferredContact = some "phone" ∧ present r.phone = false) ∨
       (r.preferredContact = some "instagram" ∧
         present r.instagram = false)) →
      submitOk (submitTokenResponse tokenId r ip ua db) = false ∧
      (submitTokenResponse tokenId r ip ua db).2 = db) := by
  refine ⟨?_, ?_, ?_⟩
  · intro tokenId r ip ua db hil he hp hi
    exact submit_fails_of_contactError tokenId r ip ua db _
      (contactError_no_contacts r hil he hp hi)
  · intro r ip ua db t hfind hne hpro hst hdup hname hil he hp hi
    have hcen : interestedContactError r = none :=
      contactError_not_interested r (by simp [hil])
    have hpil : present r.interestLevel = true := by rw [hil]; decide
    have hcont : (["interested", "maybe_later", "not_interested"].contains
        (r.interestLevel.getD "")) = true := by rw [hil]; decide
    unfold submitTokenResponse
    repeat' split
    all_goals simp_all
  · intro tokenId r ip ua db hil hmis
    obtain ⟨msg, hce⟩ := contactError_preferred_mismatch r hil hmis
    exact submit_fails_of_contactError tokenId r ip ua db msg hce

/-- C6 witness: on the concrete store c6db, the interested input with no
contacts is rejected, and the not-interested input with no contacts is
accepted. -/
theorem c6_contact_invariant_witness :
    submitOk (submitTokenResponse "VID-r66666" c6bad none none c6db)
      = false ∧
    (submitTokenResponse "VID-r66666" c6good none none c6db).1 =
      Except.ok (30, "not_interested") ∧
    submitOk (submitTokenResponse "VID-r66666" c6badPref none none c6db)
      = false :=
  ⟨(c6_contact_invariant.1 "VID-r66666" c6bad none none c6db rfl rfl rfl
      rfl).1,
   c6_contact_invariant.2.1 c6good none none c6db c6token (by decide)
     (by decide) (by decide) (by decide) (by decide) (by decide) rfl rfl
     rfl rfl,
   (c6_contact_invariant.2.2 "VID-r66666" c6badPref none none c6db rfl
      (Or.inl ⟨rfl, rfl⟩)).1⟩

/-- C10: the status gate of the video branch of submitTokenResponse.  With
structurally valid input and the token found, a token whose status is
expired or revoked is rejected with the literal error Token is expired /
Token is revoked, while a token whose status is active or viewed proceeds
(and, absent a prior response and with the contact rule satisfied, the
response is accepted) - in particular a response can still be submitted
after the token was redeemed into the terminal viewed state. -/
theorem c10_submit_status_gate
    (r : ResponseInput) (ip ua : Option String) (db : DB) (t : VideoToken)
    (il : String)
    (hfind : db.tokens.find? (fun u => u.tokenCode == t.tokenCode) = some t)
    (hne : t.tokenCode.isEmpty = false)
    (hpro : startsWithPRO t.tokenCode = false)
    (hname : present r.name = true)
    (hil : r.interestLevel = some il)
    (hil2 : il = "interested" ∨ il = "maybe_later" ∨
      il = "not_interested") :
    (t.status = TokenStatus.expired →
      (submitTokenResponse t.tokenCode r ip ua db).1 =
        Except.error ⟨400, "Token is expired"⟩) ∧
    (t.status = TokenStatus.revoked →
      (submitTokenResponse t.tokenCode r ip ua db).1 =
        Except.error ⟨400, "Token is revoked"⟩) ∧
    ((t.status = TokenStatus.active ∨ t.status = TokenStatus.viewed) →
      tokenHasResponse t.id db = false →
      interestedContactError r = none →
      (submitTokenResponse t.tokenCode r ip ua db).1 =
        Except.ok (db.nextId, il)) := by
  have hpil : present r.interestLevel = true := by
    rw [hil]; rcases hil2 with rfl | rfl | rfl <;> decide
  have hcont : (["interested", "maybe_later", "not_interested"].contains
      (r.interestLevel.getD "")) = true := by
    rw [hil]; rcases hil2 with rfl | rfl | rfl <;> decide
  refine ⟨?_, ?_, ?_⟩
  · intro hst
    unfold submitTokenResponse
    repeat' split
    all_goals simp_all [TokenStatus.str]
  · intro hst
    unfold submitTokenResponse
    repeat' split
    all_goals simp_all [TokenStatus.str]
  · intro hst hdup hcen
    rcases hst with hst | hst <;>
      (unfold submitTokenResponse
       repeat' split
       all_goals simp_all)

/-- C10 witness: the concrete expired token is rejected with the literal
reason and the concrete viewed token still accepts a response. -/
theorem c10_submit_status_gate_witness :
    (submitTokenResponse "VID-x10101" c10input none none c10db).1 =
      Except.error ⟨400, "Token is expired"⟩ ∧
    (submitTokenResponse "VID-y10102" c10input none none c10db).1 =
      Except.ok (40, "maybe_later") :=
  ⟨(c10_submit_status_gate c10input none none c10db c10tokenExpired
      "maybe_later" (by decide) (by decide) (by decide) (by decide) rfl
      (Or.inr (Or.inl rfl))).1 rfl,
   (c10_submit_status_gate c10input none none c10db c10tokenViewed
      "maybe_later" (by decide) (by decide) (by decide) (by decide) rfl
      (Or.inr (Or.inl rfl))).2.2 (Or.inr rfl) (by decide) (by decide)⟩

/-- C4 amended: sequential response uniqueness.  Under sequential execution
a video-token submission against a token that already has a stored
response is rejected with the duplicate message and writes nothing; when
no response exists yet, exactly the one new response row referencing the
token is appended; and a profile-target submission performs no uniqueness
check at all, so it succeeds whatever responses the store already holds. -/
theorem c4_response_uniqueness_sequential
    (r : ResponseInput) (ip ua : Option String) (db : DB) (t : VideoToken)
    (il : String)
    (hfind : db.tokens.find? (fun u => u.tokenCode == t.tokenCode) = some t)
    (hne : t.tokenCode.isEmpty = false)
    (hpro : startsWithPRO t.tokenCode = false)
    (hname : present r.name = true)
    (hil : r.interestLevel = some il)
    (hil2 : il = "interested" ∨ il = "maybe_later" ∨
      il = "not_interested")
    (hst : t.status = TokenStatus.active ∨ t.status = TokenStatus.viewed) :
    (tokenHasResponse t.id db = true →
      (submitTokenResponse t.tokenCode r ip ua db).1 =
        Except.error
          ⟨400, "A response has already been submitted for this token"⟩ ∧
      (submitTokenResponse t.tokenCode r ip ua db).2 = db) ∧
    (tokenHasResponse t.id db = false →
      interestedContactError r = none →
      (submitTokenResponse t.tokenCode r ip ua db).2.responses =
        db.responses ++ [videoResponseRecord t.id r ip ua db.nextId]) ∧
    (∀ (proTokenId : String) (p : Profile) (db2 : DB),
      proTokenId.isEmpty = false → startsWithPRO proTokenId = true →
      db2.profiles.find? (fun q => q.profileToken == proTokenId) = some p →
      interestedContactError r = none →
      (submitTokenResponse proTokenId r ip ua db2).1 =
        Except.ok (db2.nextId, il) ∧
      (submitTokenResponse proTokenId r ip ua db2).2.responses =
        db2.responses ++ [profileResponseRecord p.id r ip ua db2.nextId]) := by
  have hpil : present r.interestLevel = true := by
    rw [hil]; rcases hil2 with rfl | rfl | rfl <;> decide
  have hcont : (["interested", "maybe_later", "not_interested"].contains
      (r.interestLevel.getD "")) = true := by
    rw [hil]; rcases hil2 with rfl | rfl | rfl <;> decide
  refine ⟨?_, ?_, ?_⟩
  · intro hdup
    rcases hst with hst | hst <;>
      (unfold submitTokenResponse
       repeat' split
       all_goals simp_all)
  · intro hdup hcen
    rcases hst with hst | hst <;>
      (unfold submitTokenResponse
       repeat' split
       all_goals simp_all [insertVideoResponse])
  · intro proTokenId p db2 hne2 hpro2 hfindp hcen
    unfold submitTokenResponse
    repeat' split
    all_goals simp_all [insertProfileResponse]

/-- C4 amended witness: the store c4dbDup already holds a response for
token 1, so a second sequential submission is rejected; and the profile
store c4dbPro already holds a response for profile 7, yet a further
profile submission succeeds. -/
theorem c4_response_uniqueness_sequential_witness :
    (submitTokenResponse "VID-dddd33" c4inputB none none c4dbDup).1 =
      Except.error
        ⟨400, "A response has already been submitted for this token"⟩ ∧
    (submitTokenResponse "PRO-p4444444" c4inputB none none c4dbPro).1 =
      Except.ok (61, "interested") :=
  ⟨((c4_response_uniqueness_sequential c4inputB none none c4dbDup c4token
      "interested" (by decide) (by decide) (by decide) (by decide) rfl
      (Or.inl rfl) (Or.inl rfl)).1 (by decide)).1,
   ((c4_response_uniqueness_sequential c4inputB none none c4dbDup c4token
      "interested" (by decide) (by decide) (by decide) (by decide) rfl
      (Or.inl rfl) (Or.inl rfl)).2.2 "PRO-p4444444" c4profile c4dbPro
      (by decide) (by decide) (by decide) (by decide)).1⟩

/-- The BEFORE UPDATE trigger pipeline preserves the id, the token code and
the video reference of the row being written. -/
theorem trigger_row_keys (now : Nat) (old upd : VideoToken)
    (videos : List Video) :
    ((handle_video_token_viewing now old
        (handle_video_token_expiration now upd).1 videos).1).id = upd.id ∧
    ((handle_video_token_viewing now old
        (handle_video_token_expiration now upd).1 videos).1).tokenCode =
      upd.tokenCode ∧
    ((handle_video_token_viewing now old
        (handle_video_token_expiration now upd).1 videos).1).videoId =
      upd.videoId := by
  unfold handle_video_token_expiration handle_video_token_viewing
  split <;> split <;> exact ⟨rfl, rfl, rfl⟩

/-- The trigger pipeline leaves the id column of the videos table
unchanged. -/
theorem trigger_videos_ids (now : Nat) (old upd : VideoToken)
    (videos : List Video) :
    ((handle_video_token_viewing now old
        (handle_video_token_expiration now upd).1 videos).2.1).map Video.id
      = videos.map Video.id := by
  unfold handle_video_token_viewing
  split
  · exact map_key_pointwise Video.id _ videos (fun v => by
      by_cases h : (v.id == ((handle_video_token_expiration now upd).1).videoId) = true <;>
        simp [h])
  · rfl

/-- Replacing one token row by a row with the same id and code, and the
videos table by one with the same ids, preserves well-formedness. -/
theorem wf_update (db : DB) (t n : VideoToken) (vids : List Video)
    (lgs : List ActivityLog)
    (hwf : WF db) (ht : t ∈ db.tokens)
    (hid : n.id = t.id) (hcode : n.tokenCode = t.tokenCode)
    (hvids : vids.map Video.id = db.videos.map Video.id) :
    WF { db with
      tokens := db.tokens.map (fun u => if u.id == t.id then n else u),
      videos := vids, logs := lgs } := by
  obtain ⟨h1, h2, h3, h4, h5⟩ := hwf
  refine ⟨?_, ?_, ?_, ?_, ?_⟩
  · rw [map_key_replace VideoToken.id h1 ht hid]
    exact h1
  · rw [map_key_replace VideoToken.tokenCode h1 ht hcode]
    exact h2
  · intro u hu
    obtain ⟨w, hw, rfl⟩ := List.mem_map.mp hu
    by_cases hcase : (w.id == t.id) = true
    · simpa [hcase, hid] using h3 t ht
    · simpa [hcase] using h3 w hw
  · rw [hvids]
    exact h4
  · intro v hv
    have hvm : v.id ∈ vids.map Video.id := List.mem_map_of_mem _ hv
    rw [hvids] at hvm
    obtain ⟨w, hw, hwe⟩ := List.mem_map.mp hvm
    exact hwe ▸ h5 w hw

/-- A row update through the trigger pipeline preserves well-formedness. -/
theorem wf_updateVideoTokenRow (now : Nat) (db : DB) (t0 upd : VideoToken)
    (hwf : WF db) (ht0 : t0 ∈ db.tokens)
    (hid : upd.id = t0.id) (hcode : upd.tokenCode = t0.tokenCode) :
    WF (updateVideoTokenRow now db t0 upd).1 := by
  obtain ⟨hti, htc, htv⟩ := trigger_row_keys now t0 upd db.videos
  exact wf_update db t0 _ _ _ hwf ht0 (hti.trans hid) (htc.trans hcode)
    (trigger_videos_ids now t0 upd db.videos)

/-- A row update by id leaves every other row in place. -/
theorem mem_updateVideoTokenRow (now : Nat) (db : DB) (t0 upd t : VideoToken)
    (hids : (db.tokens.map VideoToken.id).Nodup)
    (ht : t ∈ db.tokens) (ht0 : t0 ∈ db.tokens) (htne : t ≠ t0) :
    t ∈ (updateVideoTokenRow now db t0 upd).1.tokens := by
  have hne : (t.id == t0.id) = false := by
    rw [beq_eq_false_iff_ne]
    intro e
    exact htne (List.inj_on_of_nodup_map hids ht ht0 e)
  unfold updateVideoTokenRow
  exact List.mem_map.mpr ⟨t, ht, by simp [hne]⟩

/-- The insert phase of a video response touches neither tokens nor videos
and only advances the id counter. -/
theorem wf_insertVideoResponse (tid ownerId : Nat) (r : ResponseInput)
    (ip ua : Option String) (db : DB) (hwf : WF db) :
    WF (insertVideoResponse tid ownerId r ip ua db) := by
  obtain ⟨h1, h2, h3, h4, h5⟩ := hwf
  exact ⟨h1, h2, fun t ht => Nat.lt_succ_of_lt (h3 t ht), h4,
    fun v hv => Nat.lt_succ_of_lt (h5 v hv)⟩

/-- The insert phase of a profile response touches neither tokens nor
videos and only advances the id counter. -/
theorem wf_insertProfileResponse (pid : Nat) (r : ResponseInput)
    (ip ua : Option String) (db : DB) (hwf : WF db) :
    WF (insertProfileResponse pid r ip ua db) := by
  obtain ⟨h1, h2, h3, h4, h5⟩ := hwf
  exact ⟨h1, h2, fun t ht => Nat.lt_succ_of_lt (h3 t ht), h4,
    fun v hv => Nat.lt_succ_of_lt (h5 v hv)⟩

/-- Appending a fresh video row and a fresh token row with a fresh code
preserves well-formedness. -/
theorem wf_append_fresh (db : DB) (v : Video) (tk : VideoToken)
    (lgs : List ActivityLog) (hwf : WF db)
    (hvid : v.id = db.nextId) (htid : tk.id = db.nextId + 1)
    (hcode : ∀ u ∈ db.tokens, u.tokenCode ≠ tk.tokenCode) :
    WF { db with videos := db.videos ++ [v], tokens := db.tokens ++ [tk],
                 logs := lgs, nextId := db.nextId + 2 } := by
  obtain ⟨h1, h2, h3, h4, h5⟩ := hwf
  refine ⟨?_, ?_, ?_, ?_, ?_⟩
  · rw [List.map_append]
    rw [List.nodup_append]
    refine ⟨h1, List.nodup_singleton _, ?_⟩
    intro x hx hx2
    obtain ⟨w, hw, rfl⟩ := List.mem_map.mp hx
    have := h3 w hw
    have hx2' : w.id = tk.id := by simpa using hx2
    omega
  · rw [List.map_append]
    rw [List.nodup_append]
    refine ⟨h2, List.nodup_singleton _, ?_⟩
    intro x hx hx2
    obtain ⟨w, hw, rfl⟩ := List.mem_map.mp hx
    have hx2' : w.tokenCode = tk.tokenCode := by simpa using hx2
    exact hcode w hw hx2'
  · intro u hu
    show u.id < db.nextId + 2
    rcases List.mem_append.mp hu with h | h
    · have := h3 u h
      omega
    · rw [List.mem_singleton.mp h]
      omega
  · rw [List.map_append]
    rw [List.nodup_append]
    refine ⟨h4, List.nodup_singleton _, ?_⟩
    intro x hx hx2
    obtain ⟨w, hw, rfl⟩ := List.mem_map.mp hx
    have := h5 w hw
    have hx2' : w.id = v.id := by simpa using hx2
    omega
  · intro w hw
    show w.id < db.nextId + 2
    rcases List.mem_append.mp hw with h | h
    · have := h5 w h
      omega
    · rw [List.mem_singleton.mp h]
      omega

/-- Every operation preserves well-formedness of the store. -/
theorem wf_step (db : DB) (op : Op) (hwf : WF db) : WF (step db op) := by
  cases op with
  | redeem now code ip ua =>
    show WF (access_video_by_token now code ip ua db).2
    unfold access_video_by_token
    split
    · exact hwf
    · rename_i t0 heq
      split
      · exact hwf
      · split
        · exact hwf
        · split
          · exact hwf
          · exact wf_updateVideoTokenRow now db t0 _ hwf
              (List.mem_of_find?_eq_some heq) rfl rfl
  | assign now code vid label note userId =>
    show WF (assignVideoToToken now code vid label note userId db).2
    unfold assignVideoToToken
    split
    · exact hwf
    · rename_i t0 heq
      split
      · exact hwf
      · split
        · exact hwf
        · split
          · exact hwf
          · rename_i v0 heqv
            split
            · exact hwf
            · exact wf_updateVideoTokenRow now db t0 _ hwf
                (List.mem_of_find?_eq_some heq) rfl rfl
  | submit code r ip ua =>
    show WF (submitTokenResponse code r ip ua db).2
    unfold submitTokenResponse
    repeat' split
    all_goals first
      | exact hwf
      | exact wf_insertProfileResponse _ r ip ua db hwf
      | exact wf_insertVideoResponse _ _ r ip ua db hwf
  | createCustom now userId vu tu d g label note dv =>
    show WF (create_custom_video_with_token now userId vu tu d g label
      note dv db).2
    unfold create_custom_video_with_token
    split
    · exact hwf
    · split
      · exact hwf
      · rename_i h1 h2
        refine wf_append_fresh db _ _ _ hwf rfl rfl ?_
        intro u hu he
        apply h2
        rw [List.any_eq_true]
        exact ⟨u, hu, by simp [he]⟩
  | generate now codes userId => exact hwf

/-- No operation removes or rewrites a terminal-status token row: the
update paths of redeem and assign require the row they touch to be
active, response submission writes no token row, and creation only
appends fresh rows. -/
theorem terminal_mem_step (db : DB) (op : Op) (t : VideoToken)
    (hwf : WF db) (ht : t ∈ db.tokens)
    (hterm : t.status.isTerminal = true) :
    t ∈ (step db op).tokens := by
  cases op with
  | redeem now code ip ua =>
    show t ∈ (access_video_by_token now code ip ua db).2.tokens
    unfold access_video_by_token
    split
    · exact ht
    · rename_i t0 heq
      split
      · exact ht
      · split
        · exact ht
        · split
          · exact ht
          · rename_i h1 h2 h3
            have hst : t0.status = TokenStatus.active := by
              cases h : t0.status <;> simp_all
            have htne : t ≠ t0 := by
              intro e
              rw [e, hst] at hterm
              simp [TokenStatus.isTerminal] at hterm
            exact mem_updateVideoTokenRow now db t0 _ t hwf.1 ht
              (List.mem_of_find?_eq_some heq) htne
  | assign now code vid label note userId =>
    show t ∈ (assignVideoToToken now code vid label note userId db).2.tokens
    unfold assignVideoToToken
    split
    · exact ht
    · rename_i t0 heq
      split
      · exact ht
      · split
        · exact ht
        · rename_i h1 h2
          have hst : t0.status = TokenStatus.active := by
            by_cases h : t0.status = TokenStatus.active
            · exact h
            · exact absurd h (by simpa using h2)
          have htne : t ≠ t0 := by
            intro e
            rw [e, hst] at hterm
            simp [TokenStatus.isTerminal] at hterm
          split
          · exact ht
          · split
            · exact ht
            · exact mem_updateVideoTokenRow now db t0 _ t hwf.1 ht
                (List.mem_of_find?_eq_some heq) htne
  | submit code r ip ua =>
    show t ∈ (submitTokenResponse code r ip ua db).2.tokens
    unfold submitTokenResponse
    repeat' split
    all_goals exact ht
  | createCustom now userId vu tu d g label note dv =>
    show t ∈ (create_custom_video_with_token now userId vu tu d g label
      note dv db).2.tokens
    unfold create_custom_video_with_token
    split
    · exact ht
    · split
      · exact ht
      · exact List.mem_append_left _ ht
  | generate now codes userId => exact ht

/-- Along any operation sequence, well-formedness holds and every
terminal-status row survives unchanged. -/
theorem run_preserves (ops : List Op) : ∀ (db : DB) (t : VideoToken),
    WF db → t ∈ db.tokens → t.status.isTerminal = true →
    WF (run db ops) ∧ t ∈ (run db ops).tokens := by
  induction ops with
  | nil => exact fun db t h1 h2 _ => ⟨h1, h2⟩
  | cons op ops ih =>
    intro db t h1 h2 h3
    exact ih (step db op) t (wf_step db op h1)
      (terminal_mem_step db op t h1 h2 h3) h3

/-- C3: monotonic state.  A VideoToken observed in a terminal status
(viewed, expired or revoked) is never moved back to active by any sequence
of core operations (redeem, assign-video, submit-response and its lazy
expiry flips, bulk generate, composite create). -/
theorem c3_monotonic_status (ops : List Op) (db : DB) (t : VideoToken)
    (hwf : WF db) (ht : t ∈ db.tokens)
    (hterm : t.status = TokenStatus.viewed ∨
      t.status = TokenStatus.expired ∨ t.status = TokenStatus.revoked) :
    ∀ u ∈ (run db ops).tokens, u.id = t.id →
      u.status ≠ TokenStatus.active := by
  have hb : t.status.isTerminal = true := by
    rcases hterm with h | h | h <;> rw [h] <;> rfl
  obtain ⟨hwf2, hmem⟩ := run_preserves ops db t hwf ht hb
  intro u hu hid hact
  have hut : u = t := List.inj_on_of_nodup_map hwf2.1 hu hmem hid
  rw [hut] at hact
  rw [hact] at hb
  simp [TokenStatus.isTerminal] at hb

/-- C3 witness: the viewed token c3token stays non-active across one
operation of every kind. -/
theorem c3_monotonic_status_witness :
    c3token ∈ (run c3db c3ops).tokens ∧
    c3token.status ≠ TokenStatus.active :=
  ⟨by decide,
   c3_monotonic_status c3ops c3db c3token (by unfold WF; decide)
     (by decide) (Or.inl rfl) c3token (by decide) rfl⟩

/-- C9 amended: a token's video reference never changes once the token is
terminal, and neither redemption nor response submission changes any
token's video reference; only assignVideoToToken (on an active token)
re-points it. -/
theorem c9_video_reference_immutability_amended
    (ops : List Op) (db : DB) (t : VideoToken)
    (hwf : WF db) (ht : t ∈ db.tokens)
    (hterm : t.status = TokenStatus.viewed ∨
      t.status = TokenStatus.expired ∨ t.status = TokenStatus.revoked) :
    (∀ u ∈ (run db ops).tokens, u.id = t.id → u.videoId = t.videoId) ∧
    (∀ (now : Nat) (code : String) (ip ua : Option String) (db2 : DB),
      WF db2 →
      ((access_video_by_token now code ip ua db2).2.tokens.map
        VideoToken.videoId) = db2.tokens.map VideoToken.videoId) ∧
    (∀ (tokenId : String) (r : ResponseInput) (ip ua : Option String)
        (db2 : DB),
      (submitTokenResponse tokenId r ip ua db2).2.tokens = db2.tokens) := by
  refine ⟨?_, ?_, ?_⟩
  · have hb : t.status.isTerminal = true := by
      rcases hterm with h | h | h <;> rw [h] <;> rfl
    obtain ⟨hwf2, hmem⟩ := run_preserves ops db t hwf ht hb
    intro u hu hid
    rw [List.inj_on_of_nodup_map hwf2.1 hu hmem hid]
  · intro now code ip ua db2 hwf2
    unfold access_video_by_token
    split
    · rfl
    · rename_i t0 heq
      split
      · rfl
      · split
        · rfl
        · split
          · rfl
          · exact map_key_replace VideoToken.videoId hwf2.1
              (List.mem_of_find?_eq_some heq)
              ((trigger_row_keys now t0
                { t0 with status := TokenStatus.viewed,
                          viewerIp := ip, viewerUserAgent := ua }
                db2.videos).2.2.trans rfl)
  · intro tokenId r ip ua db2
    unfold submitTokenResponse
    repeat' split
    all_goals rfl

/-- C9 amended witness: redeeming the concrete token c2token leaves the
video-reference column of the token table unchanged. -/
theorem c9_video_reference_immutability_amended_witness :
    ((access_video_by_token 2000 "VID-aaaa11" none none c2db).2.tokens.map
      VideoToken.videoId) = c2db.tokens.map VideoToken.videoId :=
  (c9_video_reference_immutability_amended [] c3db c3token
      (by unfold WF; decide) (by decide) (Or.inl rfl)).2.1
    2000 "VID-aaaa11" none none c2db (by unfold WF; decide)
